import Mathlib

/-!
# Verification of the order-aggregate CRUD service (src/main.py)

Shallow embedding of the FastAPI + SQLModel service in `src/main.py`.

The relational store (MySQL via SQLModel) is modelled as an explicit state:
two tables (`order`, `orderproduct`) as lists of rows in insertion order,
together with the auto-increment counters for the two primary keys.

Modelling decisions, each justified by the source:
* Python `int` is unbounded, so `product_id` and `quantity` are `Int` and
  generated primary keys are `Nat`.
* `final_price` and `unit_price` are Python floats, but every handler only
  stores and echoes them back -- no arithmetic ever touches them -- so they
  are modelled as `Rat`, which has decidable equality.
* A handler body runs inside one request-scoped session (`get_session`).
  Each `session.commit()` is a transaction boundary: either the whole set of
  pending row changes becomes persistent, or (on a constraint violation or an
  environment failure) the transaction rolls back and the persisted state is
  what the previous commit left.  The `order.order_number` column carries a
  unique constraint (`Field(unique=True, ...)`), so a commit whose pending
  changes would leave two distinct rows with the same `order_number` fails
  with an integrity error.
* `HTTPException(status_code=..., detail=...)` and the store-level integrity
  error are the two error outcomes (`ApiError`).
* FastAPI filters a handler return value through the declared
  `response_model`, keeping exactly the fields that model declares; this
  serialization step is embedded explicitly for the POST endpoint, whose
  declared model (`OrderSchema`) differs in shape from what the handler
  builds.
-/

/-- A row of the `order` table (class `Order` in src/main.py). -/
structure OrderRow where
  id : Nat
  order_number : String
  date : String
  final_price : Rat
deriving Repr, DecidableEq

/-- A row of the `orderproduct` table (class `OrderProduct` in src/main.py). -/
structure OrderProductRow where
  id : Nat
  order_id : Nat
  product_id : Int
  quantity : Int
  unit_price : Rat
deriving Repr, DecidableEq

/-- The persistent state of the relational store: both tables in insertion
order plus the auto-increment counters for the generated primary keys. -/
structure Store where
  orders : List OrderRow
  products : List OrderProductRow
  nextOrderId : Nat
  nextProductId : Nat
deriving Repr, DecidableEq

/-- Request body for one line item (`OrderProductSchema` in src/main.py).
`name` is optional with default `None`. -/
structure OrderProductSchema where
  product_id : Int
  quantity : Int
  unit_price : Rat
  name : Option String := none
deriving Repr, DecidableEq

/-- Request body for an order (`OrderSchema` in src/main.py); also the shape
of the POST response after FastAPI filters it through
`response_model=OrderSchema`.  It has no `id` field, and its line items
(`OrderProductSchema`) have no `id` field either. -/
structure OrderSchema where
  order_number : String
  date : String
  final_price : Rat
  products : List OrderProductSchema
deriving Repr, DecidableEq

/-- `OrderResponse` in src/main.py: the aggregate with generated ids, line
items as full table rows.  The dicts built by `get_orders` and by
`create_order` carry exactly these fields, so the same shape embeds them. -/
structure OrderResponse where
  id : Nat
  order_number : String
  date : String
  final_price : Rat
  products : List OrderProductRow
deriving Repr, DecidableEq

/-- The two error outcomes a handler can produce: an explicit
`HTTPException(status_code, detail)`, or the store rejecting a commit
because the unique constraint on `order_number` would be violated
(SQLAlchemy `IntegrityError`, the spec's Conflict). -/
inductive ApiError where
  | httpException (status_code : Nat) (detail : String)
  | integrityError
deriving Repr, DecidableEq

/-- `select(OrderProduct).where(OrderProduct.order_id == oid)).all()`:
all line-item rows of one order, in table order. -/
def productsOf (s : Store) (oid : Nat) : List OrderProductRow :=
  s.products.filter (fun p => p.order_id == oid)

/-- The store-level unique-constraint check on `order_number`: some already
persisted order row carries this number. -/
def orderNumberTaken (s : Store) (n : String) : Bool :=
  s.orders.any (fun o => o.order_number == n)

/-- GET /orders (`get_orders` in src/main.py): for every order row, build a
dict of its four columns plus all of its line items.  The handler only reads;
the store component of the result is the state the handler leaves behind. -/
def get_orders (s : Store) : List OrderResponse × Store :=
  (s.orders.map (fun o =>
    { id := o.id
      order_number := o.order_number
      date := o.date
      final_price := o.final_price
      products := productsOf s o.id }), s)

/-- GET /orders/\x7border_id\x7d (`get_order` in src/main.py):
`select(Order).where(Order.id == order_id)).first()`, 404 when no row
matches, otherwise the aggregate.  The store component of the result is the
state the handler leaves behind. -/
def get_order (s : Store) (order_id : Nat) : Except ApiError OrderResponse × Store :=
  match s.orders.find? (fun o => o.id == order_id) with
  | none => (Except.error (ApiError.httpException 404 "Order not found"), s)
  | some order =>
      (Except.ok
        { id := order.id
          order_number := order.order_number
          date := order.date
          final_price := order.final_price
          products := productsOf s order_id }, s)

/-- The first `session.commit()` of `create_order`: the new `Order` row alone
is made persistent (its generated id read back by `session.refresh`).  The
commit fails with an integrity error when the unique constraint on
`order_number` rejects the insert; the transaction then rolls back and the
persisted state is unchanged. -/
def createCommit1 (s : Store) (order : OrderSchema) : Except ApiError (Store × OrderRow) :=
  if orderNumberTaken s order.order_number then
    Except.error ApiError.integrityError
  else
    let db_order : OrderRow :=
      { id := s.nextOrderId
        order_number := order.order_number
        date := order.date
        final_price := order.final_price }
    Except.ok
      ({ s with orders := s.orders ++ [db_order], nextOrderId := s.nextOrderId + 1 }, db_order)

/-- The `for product in ...: session.add(OrderProduct(...))` loop shared by
`create_order` and `update_order`: each schema item becomes a row with the
next generated id, attached to order `oid`; returns the new store and the
list of inserted rows in loop order. -/
def insertProducts (s : Store) (oid : Nat) :
    List OrderProductSchema → Store × List OrderProductRow
  | [] => (s, [])
  | p :: rest =>
      let row : OrderProductRow :=
        { id := s.nextProductId
          order_id := oid
          product_id := p.product_id
          quantity := p.quantity
          unit_price := p.unit_price }
      let s1 : Store :=
        { s with products := s.products ++ [row], nextProductId := s.nextProductId + 1 }
      let rec_result := insertProducts s1 oid rest
      (rec_result.1, row :: rec_result.2)

/-- POST /orders (`create_order` in src/main.py): commit the order row first,
then insert the line items and commit again; return the dict with the
generated ids.  An error means the store rejected the first commit and the
persisted state is unchanged. -/
def create_order (s : Store) (order : OrderSchema) :
    Except ApiError (Store × OrderResponse) :=
  match createCommit1 s order with
  | Except.error e => Except.error e
  | Except.ok (s1, db_order) =>
      let inserted := insertProducts s1 db_order.id order.products
      Except.ok
        (inserted.1,
         { id := db_order.id
           order_number := db_order.order_number
           date := db_order.date
           final_price := db_order.final_price
           products := inserted.2 })

/-- The sequence of store states made persistent by the commits of
`create_order`, in order.  `create_order` commits twice: once after adding
the order row, once after adding the line items.  If the first commit is
rejected nothing is ever persisted.  A failure of any step after the first
commit (a line-item insert or the second commit) leaves the store at the
first listed state. -/
def create_order_commit_states (s : Store) (order : OrderSchema) : List Store :=
  match createCommit1 s order with
  | Except.error _ => []
  | Except.ok (s1, db_order) => [s1, (insertProducts s1 db_order.id order.products).1]

/-- FastAPI serialization of one `OrderProduct` row through the declared
`OrderProductSchema`: only `product_id`, `quantity`, `unit_price` survive
(`name` is absent on the row, so its default `None` is used).  The row's
`id` and `order_id` are dropped because the schema does not declare them. -/
def serializeProduct (p : OrderProductRow) : OrderProductSchema :=
  { product_id := p.product_id
    quantity := p.quantity
    unit_price := p.unit_price
    name := none }

/-- FastAPI serialization of the `create_order` return value through the
declared `response_model=OrderSchema`: only the fields `OrderSchema`
declares survive, so the order's `id` and every line item's `id` are
dropped from the HTTP response. -/
def serializeCreateResponse (r : OrderResponse) : OrderSchema :=
  { order_number := r.order_number
    date := r.date
    final_price := r.final_price
    products := r.products.map serializeProduct }

/-- The POST /orders endpoint as seen on the wire: the handler result
filtered through `response_model=OrderSchema`. -/
def create_order_endpoint (s : Store) (order : OrderSchema) :
    Except ApiError (Store × OrderSchema) :=
  (create_order s order).map (fun x => (x.1, serializeCreateResponse x.2))

/-- PUT /orders/\x7border_id\x7d (`update_order` in src/main.py):
`session.get(Order, order_id)`, 404 when absent; otherwise overwrite the
three scalar columns, bulk-delete the order's line items, add the new ones,
and commit once.  That single commit is rejected (integrity error, store
unchanged) when the new `order_number` is already carried by a different
order row; otherwise the combined state becomes persistent and the
`OrderResponse` is returned. -/
def update_order (s : Store) (order_id : Nat) (order_data : OrderSchema) :
    Except ApiError (Store × OrderResponse) :=
  match s.orders.find? (fun o => o.id == order_id) with
  | none => Except.error (ApiError.httpException 404 "Order not found")
  | some order =>
      let updated : OrderRow :=
        { order with
            order_number := order_data.order_number
            final_price := order_data.final_price
            date := order_data.date }
      let s1 : Store :=
        { s with
            orders := s.orders.map (fun o => if o.id == order_id then updated else o)
            products := s.products.filter (fun p => p.order_id != order_id) }
      let inserted := insertProducts s1 order_id order_data.products
      if inserted.1.orders.any
          (fun o => o.id != order_id && o.order_number == order_data.order_number) then
        Except.error ApiError.integrityError
      else
        Except.ok
          (inserted.1,
           { id := updated.id
             order_number := updated.order_number
             date := updated.date
             final_price := updated.final_price
             products := inserted.2 })

/-- DELETE /orders/\x7border_id\x7d (`delete_order` in src/main.py):
`session.get(Order, order_id)`, 404 when absent; otherwise delete every line
item of the order, delete the order row, and commit once. -/
def delete_order (s : Store) (order_id : Nat) :
    Except ApiError (Store × String) :=
  match s.orders.find? (fun o => o.id == order_id) with
  | none => Except.error (ApiError.httpException 404 "Order not found")
  | some _ =>
      Except.ok
        ({ s with
            products := s.products.filter (fun p => p.order_id != order_id)
            orders := s.orders.filter (fun o => o.id != order_id) },
         "Order deleted successfully")

/-- Well-formedness of a store state, as the relational engine guarantees it:
generated ids are below the auto-increment counters, primary keys are unique
in each table, and the foreign key `orderproduct.order_id -> order.id`
holds. -/
def Store.WF (s : Store) : Prop :=
  (∀ o ∈ s.orders, o.id < s.nextOrderId) ∧
  (∀ p ∈ s.products, p.id < s.nextProductId) ∧
  s.orders.Pairwise (fun a b => a.id ≠ b.id) ∧
  s.products.Pairwise (fun a b => a.id ≠ b.id) ∧
  (∀ p ∈ s.products, ∃ o ∈ s.orders, o.id = p.order_id)

instance (s : Store) : Decidable s.WF := by
  unfold Store.WF
  infer_instance

/-! ## Helper lemmas about the line-item insertion loop -/

theorem insertProducts_fst_orders (oid : Nat) (ps : List OrderProductSchema) (s : Store) :
    ((insertProducts s oid ps).1).orders = s.orders := by
  induction ps generalizing s with
  | nil => rfl
  | cons p rest ih => simp [insertProducts, ih]

theorem insertProducts_fst_nextOrderId (oid : Nat) (ps : List OrderProductSchema) (s : Store) :
    ((insertProducts s oid ps).1).nextOrderId = s.nextOrderId := by
  induction ps generalizing s with
  | nil => rfl
  | cons p rest ih => simp [insertProducts, ih]

theorem insertProducts_fst_products (oid : Nat) (ps : List OrderProductSchema) (s : Store) :
    ((insertProducts s oid ps).1).products = s.products ++ (insertProducts s oid ps).2 := by
  induction ps generalizing s with
  | nil => simp [insertProducts]
  | cons p rest ih => simp [insertProducts, ih]

theorem insertProducts_snd_forall₂ (oid : Nat) (ps : List OrderProductSchema) (s : Store) :
    List.Forall₂ (fun (r : OrderProductRow) (q : OrderProductSchema) =>
      r.order_id = oid ∧ r.product_id = q.product_id ∧ r.quantity = q.quantity ∧
      r.unit_price = q.unit_price) (insertProducts s oid ps).2 ps := by
  induction ps generalizing s with
  | nil => simp [insertProducts]
  | cons p rest ih =>
      simp only [insertProducts]
      exact List.Forall₂.cons ⟨rfl, rfl, rfl, rfl⟩ (ih _)

theorem insertProducts_snd_order_id (oid : Nat) (ps : List OrderProductSchema) (s : Store) :
    ∀ r ∈ (insertProducts s oid ps).2, r.order_id = oid := by
  induction ps generalizing s with
  | nil => simp [insertProducts]
  | cons p rest ih =>
      simp only [insertProducts, List.mem_cons]
      rintro r (rfl | hr)
      · rfl
      · exact ih _ r hr

theorem insertProducts_snd_id_ge (oid : Nat) (ps : List OrderProductSchema) (s : Store) :
    ∀ r ∈ (insertProducts s oid ps).2, s.nextProductId ≤ r.id := by
  induction ps generalizing s with
  | nil => simp [insertProducts]
  | cons p rest ih =>
      simp only [insertProducts, List.mem_cons]
      rintro r (rfl | hr)
      · exact Nat.le_refl _
      · exact Nat.le_trans (Nat.le_succ _) (ih _ r hr)

theorem insertProducts_snd_pairwise (oid : Nat) (ps : List OrderProductSchema) (s : Store) :
    (insertProducts s oid ps).2.Pairwise (fun a b => a.id ≠ b.id) := by
  induction ps generalizing s with
  | nil => simp [insertProducts]
  | cons p rest ih =>
      simp only [insertProducts]
      refine List.pairwise_cons.mpr ⟨?_, ih _⟩
      intro r hr
      have h : s.nextProductId + 1 ≤ r.id := insertProducts_snd_id_ge oid rest _ r hr
      show s.nextProductId ≠ r.id
      omega

theorem insertProducts_snd_length (oid : Nat) (ps : List OrderProductSchema) (s : Store) :
    (insertProducts s oid ps).2.length = ps.length :=
  (insertProducts_snd_forall₂ oid ps s).length_eq

/-! ## Helper lemmas about looking up an order by id -/

theorem find?_map_update (l : List OrderRow) (oid : Nat) (u : OrderRow) (hu : u.id = oid) :
    (l.map (fun o => if o.id == oid then u else o)).find? (fun o => o.id == oid) =
      (l.find? (fun o => o.id == oid)).map (fun _ => u) := by
  induction l with
  | nil => rfl
  | cons a l ih =>
      by_cases h : a.id = oid
      · have hb : (a.id == oid) = true := by simp [h]
        have h2 : List.find? (fun o => o.id == oid) (a :: l) = some a :=
          List.find?_cons_of_pos l hb
        rw [List.map_cons, if_pos hb, List.find?_cons_of_pos _ (by simp [hu]), h2]
        rfl
      · have hb : ¬((a.id == oid) = true) := by simp [h]
        have h2 : List.find? (fun o => o.id == oid) (a :: l) =
            List.find? (fun o => o.id == oid) l :=
          List.find?_cons_of_neg l hb
        have h3 : List.find? (fun o => o.id == oid)
            (a :: l.map (fun o => if o.id == oid then u else o)) =
              List.find? (fun o => o.id == oid)
                (l.map (fun o => if o.id == oid then u else o)) :=
          List.find?_cons_of_neg _ hb
        rw [List.map_cons, if_neg hb, h3, h2, ih]

theorem map_update_ids (l : List OrderRow) (oid : Nat) (u : OrderRow) (hu : u.id = oid) :
    (l.map (fun o => if o.id == oid then u else o)).map (fun o => o.id) =
      l.map (fun o => o.id) := by
  rw [List.map_map]
  refine List.map_congr_left ?_
  intro a ha
  by_cases h : a.id = oid
  · simp [Function.comp, h, hu]
  · simp [Function.comp, h]

/-! ## Concrete fixtures used by witnesses and counterexamples -/

/-- The store of a fresh database: no rows, both counters at MySQL's initial
auto-increment value 1. -/
def emptyStore : Store := { orders := [], products := [], nextOrderId := 1, nextProductId := 1 }

/-- The example create request of spec section 8. -/
def reqA1 : OrderSchema :=
  { order_number := "A1"
    date := "2024-01-01"
    final_price := 20
    products := [{ product_id := 1, quantity := 2, unit_price := 10 }] }

/-- The store after `create_order emptyStore reqA1` succeeds. -/
def storeA1 : Store :=
  { orders := [{ id := 1, order_number := "A1", date := "2024-01-01", final_price := 20 }]
    products := [{ id := 1, order_id := 1, product_id := 1, quantity := 2, unit_price := 10 }]
    nextOrderId := 2
    nextProductId := 2 }

/-- The handler return value of `create_order emptyStore reqA1`. -/
def respA1 : OrderResponse :=
  { id := 1
    order_number := "A1"
    date := "2024-01-01"
    final_price := 20
    products := [{ id := 1, order_id := 1, product_id := 1, quantity := 2, unit_price := 10 }] }

/-- A second create request reusing order_number "A1". -/
def reqA1dup : OrderSchema :=
  { order_number := "A1", date := "2024-02-02", final_price := 5, products := [] }

/-- A store holding two orders "A" (id 1) and "B" (id 2) and no line items. -/
def storeTwo : Store :=
  { orders :=
      [{ id := 1, order_number := "A", date := "2024-01-01", final_price := 10 },
       { id := 2, order_number := "B", date := "2024-01-02", final_price := 15 }]
    products := []
    nextOrderId := 3
    nextProductId := 1 }

/-- A replace request that renames the target order to "A", the
order_number already carried by order 1 of `storeTwo`. -/
def reqRenameToA : OrderSchema :=
  { order_number := "A", date := "2024-03-03", final_price := 7, products := [] }

/-- A replace request with the fresh order_number "C" and no line items. -/
def reqC : OrderSchema :=
  { order_number := "C", date := "2024-04-04", final_price := 9, products := [] }

/-- The store after `update_order storeTwo 2 reqC` succeeds. -/
def storeTwoC : Store :=
  { orders :=
      [{ id := 1, order_number := "A", date := "2024-01-01", final_price := 10 },
       { id := 2, order_number := "C", date := "2024-04-04", final_price := 9 }]
    products := []
    nextOrderId := 3
    nextProductId := 1 }

/-- The handler return value of `update_order storeTwo 2 reqC`. -/
def respC : OrderResponse :=
  { id := 2, order_number := "C", date := "2024-04-04", final_price := 9, products := [] }

/-! ## Claim theorems -/

/-- C10: the read operations are pure with respect to the store: for every
state, `get_orders` and `get_order` (whether the latter succeeds or signals
NotFound) leave every order and every line item in the store unchanged. -/
theorem reads_leave_store_unchanged (s : Store) (order_id : Nat) :
    (get_orders s).2 = s ∧ (get_order s order_id).2 = s := by
  refine ⟨rfl, ?_⟩
  unfold get_order
  cases s.orders.find? (fun o => o.id == order_id) <;> rfl

/-- C8: `get_orders` returns one entry per stored order, each entry carrying
that order's id, scalar columns and full set of associated line items, and
returns the empty sequence when no orders exist. -/
theorem get_orders_spec (s : Store) :
    (get_orders s).1.length = s.orders.length ∧
    List.Forall₂ (fun (e : OrderResponse) (o : OrderRow) =>
      e.id = o.id ∧ e.order_number = o.order_number ∧ e.date = o.date ∧
      e.final_price = o.final_price ∧ e.products = productsOf s o.id)
      (get_orders s).1 s.orders ∧
    (s.orders = [] → (get_orders s).1 = []) := by
  refine ⟨by simp [get_orders], ?_, fun h => by simp [get_orders, h]⟩
  show List.Forall₂ _ (s.orders.map _) s.orders
  rw [List.forall₂_map_left_iff]
  exact List.forall₂_same.mpr (fun o ho => ⟨rfl, rfl, rfl, rfl, rfl⟩)

/-- C8 witness: on the empty store the listing is the empty sequence. -/
theorem get_orders_spec_witness : (get_orders emptyStore).1 = [] :=
  (get_orders_spec emptyStore).2.2 rfl

/-- C1: refuted (code bug).  The claim demands that any partial failure of
the multi-row create sequence leave the store unchanged, but `create_order`
commits twice: its first commit alone persists the order row.  On the spec's
example request against a fresh store, the state persisted by the first
commit already holds the order and none of its line items and differs from
the initial store, so a failure of the subsequent line-item insert or second
commit strands exactly that state. -/
theorem create_order_first_commit_persists_partial_state :
    create_order_commit_states emptyStore reqA1 =
      [{ orders := [{ id := 1, order_number := "A1", date := "2024-01-01", final_price := 20 }]
         products := []
         nextOrderId := 2
         nextProductId := 1 },
       storeA1] ∧
    ({ orders := [{ id := 1, order_number := "A1", date := "2024-01-01", final_price := 20 }]
       products := []
       nextOrderId := 2
       nextProductId := 1 } : Store) ≠ emptyStore := by
  exact ⟨rfl, by decide⟩

/-- C2: refuted (code bug).  The handler's raw return value does carry the
generated order id and line-item id, but the endpoint declares
`response_model=OrderSchema`, which has no id field and whose line items
(`OrderProductSchema`) have no id field, so the serialized POST response
contains neither the order's generated id nor any line-item id. -/
theorem create_order_response_strips_generated_ids :
    (create_order emptyStore reqA1).map
        (fun x => (x.2.id, x.2.products.map (fun r => r.id))) =
      Except.ok (1, [1]) ∧
    create_order_endpoint emptyStore reqA1 =
      Except.ok (storeA1,
        { order_number := "A1"
          date := "2024-01-01"
          final_price := 20
          products := [{ product_id := 1, quantity := 2, unit_price := 10, name := none }] }) := by
  exact ⟨rfl, rfl⟩

/-- C6: `get_order` signals NotFound (HTTP 404) exactly when no order with
the requested id exists, and otherwise returns the one order with that id
together with all of its line items. -/
theorem get_order_spec (s : Store) (order_id : Nat)
    (h : s.orders.Pairwise (fun a b => a.id ≠ b.id)) :
    ((get_order s order_id).1 = Except.error (ApiError.httpException 404 "Order not found") ↔
      ∀ o ∈ s.orders, o.id ≠ order_id) ∧
    (∀ o ∈ s.orders, o.id = order_id →
      (get_order s order_id).1 = Except.ok
        { id := order_id
          order_number := o.order_number
          date := o.date
          final_price := o.final_price
          products := productsOf s order_id }) := by
  unfold get_order
  rcases hf : s.orders.find? (fun o => o.id == order_id) with _ | order <;> rw [hf]
  · have hnone := List.find?_eq_none.mp hf
    refine ⟨⟨fun _ o ho hid => hnone o ho (by simp [hid]), fun _ => rfl⟩, ?_⟩
    intro o ho hid
    exact absurd (show ((fun o => o.id == order_id) o) = true by simp [hid]) (hnone o ho)
  · have hmem := List.mem_of_find?_eq_some hf
    have hid : order.id = order_id := by simpa using List.find?_some hf
    refine ⟨⟨fun habs => Except.noConfusion habs, fun hall => absurd hid (hall order hmem)⟩, ?_⟩
    intro o ho hoid
    have ho_eq : o = order := by
      by_cases hne : o = order
      · exact hne
      · exact absurd (hoid.trans hid.symm)
          (List.Pairwise.forall (fun a b hab => (hab ∘ Eq.symm)) h ho hmem hne)
    subst ho_eq
    show (Except.ok
        ({ id := o.id, order_number := o.order_number, date := o.date,
           final_price := o.final_price, products := productsOf s order_id } : OrderResponse) :
        Except ApiError OrderResponse) =
      Except.ok
        { id := order_id, order_number := o.order_number, date := o.date,
          final_price := o.final_price, products := productsOf s order_id }
    rw [hid]

/-- C6 witness: on a concrete two-order store, fetching id 2 returns that
order's aggregate and fetching the absent id 5 returns the 404 error. -/
theorem get_order_spec_witness :
    (get_order storeTwo 2).1 = Except.ok
      { id := 2, order_number := "B", date := "2024-01-02", final_price := 15, products := [] } ∧
    (get_order storeTwo 5).1 = Except.error (ApiError.httpException 404 "Order not found") := by
  constructor
  · exact (get_order_spec storeTwo 2 (by decide)).2
      { id := 2, order_number := "B", date := "2024-01-02", final_price := 15 }
      (by decide) rfl
  · exact (get_order_spec storeTwo 5 (by decide)).1.mpr (by decide)

/-- C7: `delete_order` signals NotFound when no order with the id exists;
otherwise it removes every line item of that order and the order itself,
returns the confirmation message, a subsequent fetch of the id signals
NotFound, no line item with that order id remains, and no other row is
touched. -/
theorem delete_order_spec (s : Store) (order_id : Nat) :
    ((∀ o ∈ s.orders, o.id ≠ order_id) →
      delete_order s order_id = Except.error (ApiError.httpException 404 "Order not found")) ∧
    (∀ o ∈ s.orders, o.id = order_id →
      ∃ s2, delete_order s order_id = Except.ok (s2, "Order deleted successfully") ∧
        (get_order s2 order_id).1 = Except.error (ApiError.httpException 404 "Order not found") ∧
        (∀ p ∈ s2.products, p.order_id ≠ order_id) ∧
        (∀ o2 ∈ s2.orders, o2.id ≠ order_id) ∧
        (∀ o2 ∈ s.orders, o2.id ≠ order_id → o2 ∈ s2.orders) ∧
        (∀ p ∈ s.products, p.order_id ≠ order_id → p ∈ s2.products) ∧
        (∀ o2 ∈ s2.orders, o2 ∈ s.orders) ∧
        (∀ p ∈ s2.products, p ∈ s.products)) := by
  constructor
  · intro hall
    unfold delete_order
    have hnone : s.orders.find? (fun o => o.id == order_id) = none :=
      List.find?_eq_none.mpr (fun o ho => by simp [hall o ho])
    rw [hnone]
  · intro o ho hid
    unfold delete_order
    rcases hf : s.orders.find? (fun o => o.id == order_id) with _ | order <;> rw [hf]
    · exact absurd (show ((fun o => o.id == order_id) o) = true by simp [hid])
        (List.find?_eq_none.mp hf o ho)
    · refine ⟨_, rfl, ?_, ?_, ?_, ?_, ?_, ?_, ?_⟩
      · unfold get_order
        have hnone : (s.orders.filter (fun o => o.id != order_id)).find?
            (fun o => o.id == order_id) = none := by
          refine List.find?_eq_none.mpr (fun o2 ho2 => ?_)
          have h2 := (List.mem_filter.mp ho2).2
          simp only [bne_iff_ne, ne_eq] at h2
          simp [h2]
        rw [hnone]
      · intro p hp
        have h2 := (List.mem_filter.mp hp).2
        simpa using h2
      · intro o2 ho2
        have h2 := (List.mem_filter.mp ho2).2
        simpa using h2
      · intro o2 ho2 hne
        exact List.mem_filter.mpr ⟨ho2, by simpa using hne⟩
      · intro p hp hne
        exact List.mem_filter.mpr ⟨hp, by simpa using hne⟩
      · intro o2 ho2
        exact (List.mem_filter.mp ho2).1
      · intro p hp
        exact (List.mem_filter.mp hp).1

/-- C7 witness: deleting order 1 of the concrete post-create store succeeds,
and deleting the absent id 7 signals the 404 error. -/
theorem delete_order_spec_witness :
    delete_order storeA1 7 = Except.error (ApiError.httpException 404 "Order not found") ∧
    (delete_order storeA1 1).isOk = true := by
  constructor
  · exact (delete_order_spec storeA1 7).1 (by decide)
  · obtain ⟨s2, hs2, -⟩ := (delete_order_spec storeA1 1).2
      { id := 1, order_number := "A1", date := "2024-01-01", final_price := 20 }
      (by decide) rfl
    rw [hs2]
    rfl

/-- C5: after a successful create, a second create with the same
order_number is rejected by the store's unique constraint (Conflict), no
state of the second call is ever persisted (so no second order is inserted),
and the pairwise distinctness of stored order numbers is preserved by the
first call. -/
theorem create_order_duplicate_conflict (s s1 : Store) (o1 o2 : OrderSchema)
    (r1 : OrderResponse) (hnum : o2.order_number = o1.order_number)
    (h1 : create_order s o1 = Except.ok (s1, r1)) :
    create_order s1 o2 = Except.error ApiError.integrityError ∧
    create_order_commit_states s1 o2 = [] ∧
    (s.orders.Pairwise (fun a b => a.order_number ≠ b.order_number) →
      s1.orders.Pairwise (fun a b => a.order_number ≠ b.order_number)) := by
  simp only [create_order, createCommit1] at h1
  by_cases ht : orderNumberTaken s o1.order_number
  · rw [if_pos ht] at h1
    exact Except.noConfusion h1
  · rw [if_neg ht] at h1
    simp only [Except.ok.injEq, Prod.mk.injEq] at h1
    obtain ⟨hs1, -⟩ := h1
    have horders : s1.orders =
        s.orders ++ [{ id := s.nextOrderId, order_number := o1.order_number,
                       date := o1.date, final_price := o1.final_price }] := by
      rw [← hs1, insertProducts_fst_orders]
    have htaken : orderNumberTaken s1 o2.order_number = true := by
      simp [orderNumberTaken, horders, hnum]
    refine ⟨?_, ?_, ?_⟩
    · simp only [create_order, createCommit1, htaken, if_true]
    · simp only [create_order_commit_states, createCommit1, htaken, if_true]
    · intro hp
      rw [horders]
      refine List.pairwise_append.mpr ⟨hp, List.pairwise_singleton _ _, ?_⟩
      intro a ha b hb
      simp only [List.mem_singleton] at hb
      subst hb
      intro habs
      refine ht ?_
      simp only [orderNumberTaken, List.any_eq_true]
      exact ⟨a, ha, by simp [habs]⟩

/-- C5 witness: creating "A1" on the empty store and then creating "A1"
again makes the second call fail with the integrity error. -/
theorem create_order_duplicate_conflict_witness :
    create_order storeA1 reqA1dup = Except.error ApiError.integrityError :=
  (create_order_duplicate_conflict emptyStore storeA1 reqA1 reqA1dup respA1 rfl rfl).1

/-- C9: a successful replace keeps the target order's id: the returned
aggregate carries exactly the requested order id, the multiset of stored
order ids is unchanged, and an order with the requested id is still
stored. -/
theorem update_order_preserves_id (s : Store) (order_id : Nat) (req : OrderSchema)
    (s2 : Store) (resp : OrderResponse)
    (h : update_order s order_id req = Except.ok (s2, resp)) :
    resp.id = order_id ∧
    s2.orders.map (fun o => o.id) = s.orders.map (fun o => o.id) ∧
    (∃ o2 ∈ s2.orders, o2.id = order_id) := by
  simp only [update_order] at h
  split at h
  · exact Except.noConfusion h
  · rename_i order hf
    split at h
    · exact Except.noConfusion h
    · simp only [Except.ok.injEq, Prod.mk.injEq] at h
      obtain ⟨hs2, hresp⟩ := h
      have hid : order.id = order_id := by simpa using List.find?_some hf
      refine ⟨?_, ?_, ?_⟩
      · rw [← hresp]
        exact hid
      · rw [← hs2, insertProducts_fst_orders]
        exact map_update_ids s.orders order_id _ hid
      · rw [← hs2, insertProducts_fst_orders]
        refine ⟨_, List.mem_map_of_mem _ (List.mem_of_find?_eq_some hf), ?_⟩
        simp [hid]

/-- C9 witness: replacing order 2 of the concrete two-order store keeps id 2
in the response and leaves the stored order ids untouched. -/
theorem update_order_preserves_id_witness :
    respC.id = 2 ∧
    storeTwoC.orders.map (fun o => o.id) = storeTwo.orders.map (fun o => o.id) := by
  have h := update_order_preserves_id storeTwo 2 reqC storeTwoC respC rfl
  exact ⟨h.1, h.2.1⟩

/-- Shape of every successful `create_order` call, read off from the code:
the order row is appended with the next generated id, the line items are
appended behind the given rows with fresh pairwise-distinct ids, and the
response carries the request's scalar fields plus the inserted rows. -/
theorem create_order_ok_shape (s : Store) (req : OrderSchema) (s2 : Store)
    (resp : OrderResponse) (hc : create_order s req = Except.ok (s2, resp)) :
    orderNumberTaken s req.order_number = false ∧
    resp.id = s.nextOrderId ∧
    resp.order_number = req.order_number ∧
    resp.date = req.date ∧
    resp.final_price = req.final_price ∧
    s2.orders = s.orders ++
      [{ id := s.nextOrderId, order_number := req.order_number,
         date := req.date, final_price := req.final_price }] ∧
    s2.products = s.products ++ resp.products ∧
    (∀ r ∈ resp.products, r.order_id = s.nextOrderId) ∧
    (∀ r ∈ resp.products, s.nextProductId ≤ r.id) ∧
    resp.products.Pairwise (fun a b => a.id ≠ b.id) ∧
    List.Forall₂ (fun (r : OrderProductRow) (q : OrderProductSchema) =>
      r.order_id = s.nextOrderId ∧ r.product_id = q.product_id ∧ r.quantity = q.quantity ∧
      r.unit_price = q.unit_price) resp.products req.products := by
  simp only [create_order, createCommit1] at hc
  by_cases ht : orderNumberTaken s req.order_number
  · rw [if_pos ht] at hc
    exact Except.noConfusion hc
  · rw [if_neg ht] at hc
    simp only [Except.ok.injEq, Prod.mk.injEq] at hc
    obtain ⟨hs2, hresp⟩ := hc
    subst hs2
    subst hresp
    simp only [Bool.not_eq_true] at ht
    refine ⟨ht, rfl, rfl, rfl, rfl, ?_, ?_, ?_, ?_, ?_, ?_⟩
    · exact insertProducts_fst_orders _ _ _
    · exact insertProducts_fst_products _ _ _
    · exact insertProducts_snd_order_id _ _ _
    · exact insertProducts_snd_id_ge _ _ _
    · exact insertProducts_snd_pairwise _ _ _
    · exact insertProducts_snd_forall₂ _ _ _

/-- C4: creating an order with N line items and then fetching it by the
generated id returns the order's scalar fields as given in the payload and
exactly N line items matching the payload's product_id, quantity and
unit_price, each carrying a newly assigned id (pairwise distinct and unused
by any pre-existing line item); the generated order id itself is fresh. -/
theorem create_then_get_roundtrip (s : Store) (req : OrderSchema) (s2 : Store)
    (resp : OrderResponse) (hwf : s.WF)
    (hc : create_order s req = Except.ok (s2, resp)) :
    ∃ got : OrderResponse,
      (get_order s2 resp.id).1 = Except.ok got ∧
      got.id = resp.id ∧
      got.order_number = req.order_number ∧
      got.date = req.date ∧
      got.final_price = req.final_price ∧
      got.products.length = req.products.length ∧
      List.Forall₂ (fun (r : OrderProductRow) (q : OrderProductSchema) =>
        r.product_id = q.product_id ∧ r.quantity = q.quantity ∧ r.unit_price = q.unit_price)
        got.products req.products ∧
      got.products.Pairwise (fun a b => a.id ≠ b.id) ∧
      (∀ r ∈ got.products, ∀ p ∈ s.products, r.id ≠ p.id) ∧
      (∀ o ∈ s.orders, o.id ≠ resp.id) := by
  obtain ⟨-, hrid, hrnum, hrdate, hrprice, horders, hproducts, hrows_oid, hrows_ge,
    hrows_pw, hrows_f2⟩ := create_order_ok_shape s req s2 resp hc
  obtain ⟨hwf1, hwf2, -, -, hwf5⟩ := hwf
  have hfresh : ∀ o ∈ s.orders, o.id ≠ resp.id := by
    intro o ho
    have := hwf1 o ho
    omega
  have hfind : s2.orders.find? (fun o => o.id == resp.id) =
      some { id := s.nextOrderId, order_number := req.order_number,
             date := req.date, final_price := req.final_price } := by
    rw [horders, List.find?_append]
    have h1 : s.orders.find? (fun o => o.id == resp.id) = none :=
      List.find?_eq_none.mpr (fun o ho => by simp [hfresh o ho])
    rw [h1]
    simp [List.find?, hrid]
  have hpf : productsOf s2 resp.id = resp.products := by
    unfold productsOf
    rw [hproducts, List.filter_append]
    have hold : s.products.filter (fun p => p.order_id == resp.id) = [] := by
      refine List.filter_eq_nil_iff.mpr (fun p hp => ?_)
      obtain ⟨o, ho, hoid⟩ := hwf5 p hp
      have := hwf1 o ho
      simp only [beq_iff_eq, hrid]
      omega
    have hnew : resp.products.filter (fun p => p.order_id == resp.id) = resp.products :=
      List.filter_eq_self.mpr (fun r hr => by simp [hrows_oid r hr, hrid])
    rw [hold, hnew, List.nil_append]
  have hget : (get_order s2 resp.id).1 = Except.ok
      { id := s.nextOrderId, order_number := req.order_number, date := req.date,
        final_price := req.final_price, products := productsOf s2 resp.id } := by
    unfold get_order
    rw [hfind]
  refine ⟨{ id := resp.id, order_number := req.order_number, date := req.date,
            final_price := req.final_price, products := resp.products },
    ?_, rfl, rfl, rfl, rfl, hrows_f2.length_eq, ?_, hrows_pw, ?_, hfresh⟩
  · rw [hget, hpf, hrid]
  · exact hrows_f2.imp (fun a b h => ⟨h.2.1, h.2.2.1, h.2.2.2⟩)
  · intro r hr p hp
    have h1 := hrows_ge r hr
    have h2 := hwf2 p hp
    omega

/-- C4 witness: the spec's example payload created on the empty store and
fetched back by the generated id 1. -/
theorem create_then_get_roundtrip_witness :
    (get_order storeA1 respA1.id).1.isOk = true := by
  obtain ⟨got, hget, -⟩ :=
    create_then_get_roundtrip emptyStore reqA1 storeA1 respA1 (by decide) rfl
  rw [hget]
  rfl

/-- Shape of every successful `update_order` call, read off from the code:
the matched order row keeps its id and takes the request's scalar fields,
the order's old line-item rows are dropped, the request's line items are
appended as fresh rows, and the response carries the updated scalars plus
the inserted rows. -/
theorem update_order_ok_shape (s : Store) (oid : Nat) (req : OrderSchema)
    (s2 : Store) (resp : OrderResponse)
    (h : update_order s oid req = Except.ok (s2, resp)) :
    ∃ order, s.orders.find? (fun o => o.id == oid) = some order ∧
      resp.id = order.id ∧
      resp.order_number = req.order_number ∧
      resp.date = req.date ∧
      resp.final_price = req.final_price ∧
      s2.orders = s.orders.map (fun o => if o.id == oid then
        ({ order with
            order_number := req.order_number
            final_price := req.final_price
            date := req.date } : OrderRow) else o) ∧
      s2.products = s.products.filter (fun p => p.order_id != oid) ++ resp.products ∧
      (∀ r ∈ resp.products, s.nextProductId ≤ r.id) ∧
      (∀ r ∈ resp.products, r.order_id = oid) ∧
      List.Forall₂ (fun (r : OrderProductRow) (q : OrderProductSchema) =>
        r.order_id = oid ∧ r.product_id = q.product_id ∧ r.quantity = q.quantity ∧
        r.unit_price = q.unit_price) resp.products req.products := by
  simp only [update_order] at h
  split at h
  · exact Except.noConfusion h
  · rename_i order hf
    split at h
    · exact Except.noConfusion h
    · simp only [Except.ok.injEq, Prod.mk.injEq] at h
      obtain ⟨hs2, hresp⟩ := h
      subst hs2
      subst hresp
      refine ⟨order, hf, rfl, rfl, rfl, rfl, ?_, ?_, ?_, ?_, ?_⟩
      · rw [insertProducts_fst_orders]
      · rw [insertProducts_fst_products]
      · intro r hr
        have h2 := insertProducts_snd_id_ge oid req.products _ r hr
        exact h2
      · exact insertProducts_snd_order_id _ _ _
      · exact insertProducts_snd_forall₂ _ _ _

/-- The single commit of `update_order` succeeds whenever the target order
exists and the requested order_number is not carried by a different order. -/
theorem update_order_isOk (s : Store) (oid : Nat) (req : OrderSchema)
    (hex : ∃ o ∈ s.orders, o.id = oid)
    (hnum : ∀ o ∈ s.orders, o.id ≠ oid → o.order_number ≠ req.order_number) :
    (update_order s oid req).isOk = true := by
  simp only [update_order]
  split
  · rename_i hf
    obtain ⟨o0, ho0, hid0⟩ := hex
    exact absurd (show ((fun o => o.id == oid) o0) = true by simp [hid0])
      (List.find?_eq_none.mp hf o0 ho0)
  · rename_i order hf
    have hid : order.id = oid := by simpa using List.find?_some hf
    split
    · rename_i hconf
      exfalso
      rw [insertProducts_fst_orders] at hconf
      simp only [List.any_eq_true] at hconf
      obtain ⟨ox, hox, hcx⟩ := hconf
      obtain ⟨oy, hoy, rfl⟩ := List.mem_map.mp hox
      by_cases hy : oy.id = oid
      · simp [hy, hid] at hcx
      · rw [if_neg (by simp [hy] : ¬((oy.id == oid) = true))] at hcx
        simp only [Bool.and_eq_true, bne_iff_ne, ne_eq, beq_iff_eq] at hcx
        exact hnum oy hoy hy hcx.2
    · rfl

/-- C3 counterexample: order 2 of the concrete two-order store exists, yet
replacing it with a request that reuses order 1's order_number "A" neither
signals NotFound nor returns the updated aggregate: the store's unique
constraint on order_number rejects the commit with an integrity error. -/
theorem update_order_conflict_counterexample :
    (∃ o ∈ storeTwo.orders, o.id = 2) ∧
    update_order storeTwo 2 reqRenameToA = Except.error ApiError.integrityError := by
  constructor
  · exact ⟨{ id := 2, order_number := "B", date := "2024-01-02", final_price := 15 },
      by decide, rfl⟩
  · rfl

/-- C3 (amended): replace signals NotFound and leaves the store unchanged
when the order does not exist; otherwise, provided the requested
order_number is not already carried by a different order, it overwrites the
order's scalar fields, deletes every pre-existing line item of the order,
inserts exactly the requested line items, and returns the updated
aggregate, so that a subsequent fetch returns the new line-item set and
none of the old items.  (When the requested order_number belongs to a
different order the commit is rejected with the store's integrity error.) -/
theorem update_order_spec (s : Store) (order_id : Nat) (req : OrderSchema) (hwf : s.WF) :
    ((∀ o ∈ s.orders, o.id ≠ order_id) →
      update_order s order_id req = Except.error (ApiError.httpException 404 "Order not found")) ∧
    ((∃ o ∈ s.orders, o.id = order_id) →
      (∀ o ∈ s.orders, o.id ≠ order_id → o.order_number ≠ req.order_number) →
      ∃ s2 resp, update_order s order_id req = Except.ok (s2, resp) ∧
        resp.id = order_id ∧
        resp.order_number = req.order_number ∧
        resp.date = req.date ∧
        resp.final_price = req.final_price ∧
        (∃ o2 ∈ s2.orders, o2.id = order_id ∧ o2.order_number = req.order_number ∧
          o2.date = req.date ∧ o2.final_price = req.final_price) ∧
        productsOf s2 order_id = resp.products ∧
        List.Forall₂ (fun (r : OrderProductRow) (q : OrderProductSchema) =>
          r.order_id = order_id ∧ r.product_id = q.product_id ∧ r.quantity = q.quantity ∧
          r.unit_price = q.unit_price) resp.products req.products ∧
        (∀ p ∈ s.products, p.order_id = order_id → p ∉ s2.products) ∧
        (get_order s2 order_id).1 = Except.ok
          { id := order_id, order_number := req.order_number, date := req.date,
            final_price := req.final_price, products := resp.products }) := by
  constructor
  · intro hall
    unfold update_order
    have hnone : s.orders.find? (fun o => o.id == order_id) = none :=
      List.find?_eq_none.mpr (fun o ho => by simp [hall o ho])
    rw [hnone]
  · intro hex hnum
    have hok := update_order_isOk s order_id req hex hnum
    cases hu : update_order s order_id req with
    | error e =>
        rw [hu] at hok
        exact Bool.noConfusion hok
    | ok val =>
        obtain ⟨s2, resp⟩ := val
        obtain ⟨order, hfind0, hrid, hrnum, hrdate, hrprice, horders, hproducts,
          hrows_ge, hrows_oid, hrows_f2⟩ := update_order_ok_shape s order_id req s2 resp hu
        have hid0 : order.id = order_id := by simpa using List.find?_some hfind0
        have hpf : productsOf s2 order_id = resp.products := by
          unfold productsOf
          rw [hproducts, List.filter_append]
          have h1 : (s.products.filter (fun p => p.order_id != order_id)).filter
              (fun p => p.order_id == order_id) = [] := by
            refine List.filter_eq_nil_iff.mpr (fun p hp => ?_)
            have h2 := (List.mem_filter.mp hp).2
            simp only [bne_iff_ne, ne_eq] at h2
            simp [h2]
          have h2 : resp.products.filter (fun p => p.order_id == order_id) = resp.products :=
            List.filter_eq_self.mpr (fun r hr => by simp [hrows_oid r hr])
          rw [h1, h2, List.nil_append]
        have hold_gone : ∀ p ∈ s.products, p.order_id = order_id → p ∉ s2.products := by
          intro p hp hpid
          rw [hproducts]
          simp only [List.mem_append, not_or]
          constructor
          · intro hmf
            have h2 := (List.mem_filter.mp hmf).2
            simp [hpid] at h2
          · intro hmr
            have h1 := hrows_ge p hmr
            have h2 := hwf.2.1 p hp
            omega
        have hstored : ∃ o2 ∈ s2.orders, o2.id = order_id ∧
            o2.order_number = req.order_number ∧ o2.date = req.date ∧
            o2.final_price = req.final_price := by
          rw [horders]
          refine ⟨_, List.mem_map_of_mem _ (List.mem_of_find?_eq_some hfind0), ?_⟩
          simp [hid0]
        have hget : (get_order s2 order_id).1 = Except.ok
            { id := order_id, order_number := req.order_number, date := req.date,
              final_price := req.final_price, products := resp.products } := by
          unfold get_order
          rw [horders, find?_map_update s.orders order_id
            ({ id := order.id, order_number := req.order_number, date := req.date,
               final_price := req.final_price } : OrderRow) hid0, hfind0, ← hpf, ← hid0]
          rfl
        exact ⟨s2, resp, rfl, hrid.trans hid0, hrnum, hrdate, hrprice, hstored, hpf,
          hrows_f2, hold_gone, hget⟩

/-- C3 witness: replacing the absent id 9 signals the 404 error, and
replacing order 2 with the fresh order_number "C" succeeds. -/
theorem update_order_spec_witness :
    update_order storeTwo 9 reqC = Except.error (ApiError.httpException 404 "Order not found") ∧
    (update_order storeTwo 2 reqC).isOk = true := by
  constructor
  · exact (update_order_spec storeTwo 9 reqC (by decide)).1 (by decide)
  · obtain ⟨s2, resp, heq, -⟩ := (update_order_spec storeTwo 2 reqC (by decide)).2
      ⟨{ id := 2, order_number := "B", date := "2024-01-02", final_price := 15 },
        by decide, rfl⟩
      (by decide)
    rw [heq]
    rfl
